import Mathlib

/-!
Shallow embedding of the littlevote voting service core, translated from the
Go sources:

* internal/repository/redis.go      — fast tier (Redis): ticket hashes, the
  latest-version pointer, the user-vote cache, the atomic Lua decrement
  script and its EVALSHA caller, ValidateTicket.
* internal/repository (MySQL part)  — durable tier: user_votes / vote_logs /
  tickets, IncrementVotes (one transaction), DecrementTicketUsage
  (SELECT ... FOR UPDATE), SaveTicket, GetTicket.
* internal/ticket/ticket_service.go — UseTicket, GetCurrentTicket,
  generateTicket (mint sequence).
* internal/service/vote_service.go  — Vote (request path with the
  publish-failure synchronous settlement), TicketAndVote, ProcessVoteEvent.
* internal/lock (EtcdLock)          — AcquireLock / releaseLock over an
  etcd-style compare-and-set KV with a local held-locks map.
* the GraphQL resolvers             — Resolver.Vote, Resolver.TicketAndVote.

External I/O is modelled by explicit state passing plus boolean failure
oracles for the fallible transports (Kafka publish, cache deletion, the
coordination store, the three mint writes).  Wall-clock time, TTL expiry and
lease renewal are not modelled: timestamps are plain integers carried
through the records.  Strings are Lean strings; Go byte comparisons on
single ASCII characters coincide with Lean character comparisons (all
usernames the validator accepts are single ASCII bytes).
-/

namespace LittleVote

/-- Ticket record (internal/model/models.go).  Timestamps are abstract
integers (Unix nanoseconds); `remainingUsages` is a Go `int`, embedded as
`Int`. -/
structure Ticket where
  version : String
  value : String
  remainingUsages : Int
  expiresAt : Int
  createdAt : Int
deriving DecidableEq, Repr

/-- A cached user-vote JSON blob (model.UserVote, as stored in Redis). -/
structure UserVote where
  username : String
  votes : Nat
deriving DecidableEq, Repr

/-- The field map Redis stores under ticket:<version> (redis.go
CreateTicket).  A field can be absent: GetTicket leaves the zero value for
an absent field, while the Lua script reports corruption when
remainingUsages is absent. -/
structure TicketHash where
  value : String
  remainingUsages : Option Int
  expiresAt : Option Int
  createdAt : Option Int
deriving DecidableEq, Repr

/-- Fast-tier (Redis) state: the ticket:newest:version slot, the
ticket:<version> hashes, the user:vote:<name> cache entries, and whether the
decrement script is present in the server script cache (EVALSHA succeeds
iff it is). -/
structure RedisState where
  newestVersion : Option String
  tickets : String → Option TicketHash
  userVoteCache : String → Option UserVote
  scriptCached : Bool

namespace RedisRepository

/-- redis.go GetNewestTicketVersion: a missing key (redis.Nil) yields the
empty string with no error. -/
def GetNewestTicketVersion (st : RedisState) : String :=
  st.newestVersion.getD ""

/-- redis.go GetTicket: an empty hash is the "票据不存在" error; absent
fields keep the Go zero value. -/
def GetTicket (st : RedisState) (version : String) : Except String Ticket :=
  match st.tickets version with
  | none => .error "票据不存在"
  | some h =>
      .ok { version := version
            value := h.value
            remainingUsages := h.remainingUsages.getD 0
            expiresAt := h.expiresAt.getD 0
            createdAt := h.createdAt.getD 0 }

/-- redis.go CreateTicket: writes the full field map for the ticket's
version (the 10 s TTL is real time and is not modelled). -/
def CreateTicket (st : RedisState) (t : Ticket) : RedisState :=
  { st with tickets := fun v =>
      if v = t.version then
        some ⟨t.value, some t.remainingUsages, some t.expiresAt, some t.createdAt⟩
      else st.tickets v }

/-- redis.go SetNewestTicketVersion. -/
def SetNewestTicketVersion (st : RedisState) (version : String) : RedisState :=
  { st with newestVersion := some version }

/-- redis.go DeleteUserVoteCache (successful DEL). -/
def DeleteUserVoteCache (st : RedisState) (username : String) : RedisState :=
  { st with userVoteCache := fun u =>
      if u = username then none else st.userVoteCache u }

/-- Result pair the Lua script returns: status -1 with an error string, or
status 0 with the new remaining count. -/
inductive ScriptResult where
  | corrupt
  | exhausted
  | ok (remaining : Int)
deriving DecidableEq, Repr

/-- The DecrementTicketUsageScript Lua script (redis.go lines 23-41), run
atomically server-side on key ticket:<version>: HGET remainingUsages; a
missing key or missing field gives nil, hence the corrupt result; a count
at or below zero gives the exhausted result with no write; otherwise the
field is decremented by one, written back, and the new count returned. -/
def DecrementTicketUsageScriptRun (st : RedisState) (version : String) :
    ScriptResult × RedisState :=
  match st.tickets version with
  | none => (.corrupt, st)
  | some h =>
      match h.remainingUsages with
      | none => (.corrupt, st)
      | some r =>
          if r ≤ 0 then (.exhausted, st)
          else (.ok (r - 1),
            { st with tickets := fun v =>
                if v = version then some { h with remainingUsages := some (r - 1) }
                else st.tickets v })

/-- EVALSHA: runs the script iff the server's script cache holds it,
otherwise fails with NOSCRIPT.  ScriptLoad (modelled in the caller) makes
the script cached. -/
def EvalShaDecrement (st : RedisState) (version : String) :
    Except Unit (ScriptResult × RedisState) :=
  if st.scriptCached then .ok (DecrementTicketUsageScriptRun st version)
  else .error ()

/-- How the Go caller turns the script's two-slot reply into (int, error):
status not 0 surfaces the payload string as the error. -/
def InterpretScriptReply : ScriptResult → Except String Int
  | .corrupt => .error "票据数据损坏"
  | .exhausted => .error "票据使用次数已耗尽"
  | .ok r => .ok r

/-- redis.go DecrementTicketUsage: EVALSHA; on NOSCRIPT reload the script
(ScriptLoad) and retry exactly once.  The third component counts EVALSHA
attempts.  The inner error branch mirrors the Go second-failure return and
is unreachable because the reload makes the script cached. -/
def DecrementTicketUsage (st : RedisState) (version : String) :
    Except String Int × RedisState × Nat :=
  match EvalShaDecrement st version with
  | .ok (res, st') => (InterpretScriptReply res, st', 1)
  | .error () =>
      match EvalShaDecrement { st with scriptCached := true } version with
      | .ok (res, st') => (InterpretScriptReply res, st', 2)
      | .error () => (.error "执行票据使用次数脚本失败", { st with scriptCached := true }, 2)

/-- redis.go ValidateTicket: fetch the latest version; require the
presented version to equal it, then fetch the stored hash and require the
presented value to equal the stored value.  Success is the Go (true, nil)
return; every false return carries an error. -/
def ValidateTicket (st : RedisState) (t : Ticket) : Except String Unit :=
  if t.version ≠ GetNewestTicketVersion st then
    .error ("票据版本已过期，当前: " ++ t.version ++ ", 最新: " ++ GetNewestTicketVersion st)
  else
    match GetTicket st t.version with
    | .error e => .error ("获取票据失败: " ++ e)
    | .ok stored =>
        if t.value ≠ stored.value then .error "票据值不匹配"
        else .ok ()

end RedisRepository

namespace TicketService

open RedisRepository

/-- ticket_service.go UseTicket: validate then run the fast-tier atomic
decrement; (true, nil) iff both succeed, otherwise (false, err).  The
returned state threads the Redis state (a NOSCRIPT reload can change the
script cache even when the decrement then fails). -/
def UseTicket (st : RedisState) (t : Ticket) : Except String Unit × RedisState :=
  match ValidateTicket st t with
  | .error e => (.error ("票据验证失败: " ++ e), st)
  | .ok () =>
      match (DecrementTicketUsage st t.version).1 with
      | .error e => (.error ("减少Redis票据使用次数失败: " ++ e),
          (DecrementTicketUsage st t.version).2.1)
      | .ok _ => (.ok (), (DecrementTicketUsage st t.version).2.1)

end TicketService

/-- Durable-tier (MySQL) state: the user_votes table (votes per username,
`none` = no row), the append-only vote_logs rows as (username,
ticket_version) pairs, and the tickets table keyed by version. -/
structure MySQLState where
  userVotes : String → Option Nat
  voteLogs : List (String × String)
  tickets : String → Option Ticket

namespace MySQLRepository

/-- The loop body of IncrementVotes inside the open transaction: for each
username in order, UPDATE votes = votes + 1 (rows-affected 0, i.e. a
missing row, rolls the whole transaction back) and INSERT one vote_logs
row.  An error result means the transaction rolled back: the caller keeps
the pre-call state. -/
def IncrementVotesLoop (st : MySQLState) (usernames : List String)
    (ticketVersion : String) : Except String MySQLState :=
  match usernames with
  | [] => .ok st
  | u :: rest =>
      match st.userVotes u with
      | none => .error ("用户 " ++ u ++ " 不存在")
      | some n =>
          IncrementVotesLoop
            { st with
                userVotes := fun x => if x = u then some (n + 1) else st.userVotes x
                voteLogs := st.voteLogs ++ [(u, ticketVersion)] }
            rest ticketVersion

/-- IncrementVotes (vote_service.go source block, MySQL repository): one
transaction over the whole username list. -/
def IncrementVotes (st : MySQLState) (usernames : List String)
    (ticketVersion : String) : Except String MySQLState :=
  IncrementVotesLoop st usernames ticketVersion

/-- MySQL DecrementTicketUsage: SELECT remaining_usages FOR UPDATE; no row
is the not-found error; at or below zero rolls back with the exhausted
error; otherwise the count is decremented, committed, and returned. -/
def DecrementTicketUsage (st : MySQLState) (version : String) :
    Except String (Int × MySQLState) :=
  match st.tickets version with
  | none => .error "票据不存在"
  | some t =>
      if t.remainingUsages ≤ 0 then .error "票据使用次数已耗尽"
      else
        let r := t.remainingUsages - 1
        .ok (r, { st with tickets := fun v =>
            if v = version then some { t with remainingUsages := r }
            else st.tickets v })

/-- MySQL SaveTicket: INSERT ... ON DUPLICATE KEY UPDATE by version. -/
def SaveTicket (st : MySQLState) (t : Ticket) : MySQLState :=
  { st with tickets := fun v => if v = t.version then some t else st.tickets v }

/-- MySQL GetTicket by version. -/
def GetTicket (st : MySQLState) (version : String) : Except String Ticket :=
  match st.tickets version with
  | none => .error "票据不存在"
  | some t => .ok t

end MySQLRepository

namespace TicketService

open RedisRepository

/-- Failure oracle for the three external writes of the mint sequence. -/
structure MintOracle where
  mysqlSaveOk : Bool
  redisCreateOk : Bool
  redisSetVersionOk : Bool
deriving DecidableEq, Repr

/-- The three writes generateTicket attempts, in program order. -/
inductive WriteStep where
  | durableSave
  | fastCreate
  | setPointer
deriving DecidableEq, Repr

/-- ticket_service.go generateTicket: build the ticket (remaining_usages =
maxUsageCount, expires_at = now + RefreshInterval); save to MySQL first and
abort on failure; then CreateTicket in Redis (failure logged, not fatal);
then SetNewestTicketVersion (failure logged, not fatal).  The trace lists
the writes attempted, in order; a failed non-fatal write leaves the state
unchanged. -/
def generateTicket (o : MintOracle) (maxUsageCount : Int)
    (version value : String) (now refreshInterval : Int)
    (mysql : MySQLState) (redis : RedisState) :
    MySQLState × RedisState × List WriteStep :=
  let t : Ticket :=
    { version := version, value := value, remainingUsages := maxUsageCount
      expiresAt := now + refreshInterval, createdAt := now }
  if o.mysqlSaveOk then
    let mysql' := MySQLRepository.SaveTicket mysql t
    let redis₁ := if o.redisCreateOk then CreateTicket redis t else redis
    let redis₂ :=
      if o.redisSetVersionOk then SetNewestTicketVersion redis₁ version else redis₁
    (mysql', redis₂, [.durableSave, .fastCreate, .setPointer])
  else
    (mysql, redis, [.durableSave])

/-- ticket_service.go GetCurrentTicket: read the latest-version pointer
from Redis (the MySQL fallback for the pointer is commented out in the
source); read the ticket hash for that version from Redis; on any Redis
read failure fall back to MySQL and, on a hit, repopulate Redis with the
record found; in both paths reject a record whose remaining_usages is at
or below zero. -/
def GetCurrentTicket (redis : RedisState) (mysql : MySQLState) :
    Except String Ticket × RedisState :=
  match RedisRepository.GetTicket redis (GetNewestTicketVersion redis) with
  | .ok t =>
      if t.remainingUsages ≤ 0 then
        (.error ("票据 " ++ GetNewestTicketVersion redis ++ " 使用次数已耗尽"), redis)
      else (.ok t, redis)
  | .error _ =>
      match MySQLRepository.GetTicket mysql (GetNewestTicketVersion redis) with
      | .error e => (.error ("获取票据失败: " ++ e), redis)
      | .ok t =>
          if t.remainingUsages ≤ 0 then
            (.error ("票据 " ++ GetNewestTicketVersion redis ++ " 使用次数已耗尽"),
             CreateTicket redis t)
          else (.ok t, CreateTicket redis t)

end TicketService

/-- model.VoteRequest. -/
structure VoteRequest where
  usernames : List String
  ticket : Ticket
deriving DecidableEq, Repr

/-- model.VoteResponse.  The Timestamp field is time.Now() wall-clock and is
not modelled. -/
structure VoteResponse where
  success : Bool
  message : String
  usernames : List String
deriving DecidableEq, Repr

/-- model.VoteEvent (VotedAt is wall-clock, not modelled). -/
structure VoteEvent where
  usernames : List String
  ticketVersion : String
deriving DecidableEq, Repr

namespace VoteService

open RedisRepository

/-- The username check of vote_service.go Vote: a valid username is a
single byte between 'A' and 'Z'.  Any string whose byte length is 1 is one
ASCII character, so matching the character list is equivalent to the Go
byte test. -/
def validUsername (u : String) : Bool :=
  match u.data with
  | [c] => 'A' ≤ c && c ≤ 'Z'
  | _ => false

/-- Vote's input validation in source order: reject an empty list, then
reject at the first username that is not a single letter A-Z; `none` means
validation passed. -/
def voteValidationError (usernames : List String) : Option String :=
  if usernames.isEmpty then some "用户名列表不能为空"
  else
    match usernames.find? (fun u => !validUsername u) with
    | some u => some ("无效的用户名: " ++ u ++ ", 用户名必须是A-Z之间的单个字母")
    | none => none

/-- The whole world a Vote call touches: both stores plus failure oracles
for the Kafka publish and for each username's cache DEL. -/
structure World where
  redis : RedisState
  mysql : MySQLState
  kafkaPublishOk : Bool
  cacheDeleteOk : String → Bool

/-- The cache-invalidation loop: DEL user:vote:<name> for each username; a
failed DEL is logged and skipped. -/
def DeleteUserVoteCaches (deleteOk : String → Bool) (redis : RedisState)
    (usernames : List String) : RedisState :=
  usernames.foldl
    (fun st u => if deleteOk u then DeleteUserVoteCache st u else st) redis

/-- vote_service.go Vote: validate usernames; UseTicket; publish the vote
event to Kafka; on publish failure only, run IncrementVotes synchronously
(failure there fails the call) and then delete each username's cache entry
(failures logged only).  The result is the Go (response, error) pair plus
the final world. -/
def Vote (w : World) (request : VoteRequest) :
    (VoteResponse × Option String) × World :=
  match voteValidationError request.usernames with
  | some e =>
      (({ success := false, message := "投票失败", usernames := request.usernames },
        some e), w)
  | none =>
      match (TicketService.UseTicket w.redis request.ticket).1 with
      | .error e =>
          (({ success := false, message := "投票失败", usernames := request.usernames },
            some ("使用票据失败: " ++ e)),
           { w with redis := (TicketService.UseTicket w.redis request.ticket).2 })
      | .ok () =>
          if w.kafkaPublishOk then
            (({ success := true, message := "投票成功", usernames := request.usernames },
              none),
             { w with redis := (TicketService.UseTicket w.redis request.ticket).2 })
          else
            match MySQLRepository.IncrementVotes w.mysql request.usernames
                request.ticket.version with
            | .error e =>
                (({ success := false, message := "投票失败",
                    usernames := request.usernames },
                  some ("更新数据库失败: " ++ e)),
                 { w with redis := (TicketService.UseTicket w.redis request.ticket).2 })
            | .ok mysql' =>
                (({ success := true, message := "投票成功",
                    usernames := request.usernames }, none),
                 { w with
                     mysql := mysql'
                     redis := DeleteUserVoteCaches w.cacheDeleteOk
                       (TicketService.UseTicket w.redis request.ticket).2
                       request.usernames })

/-- vote_service.go ProcessVoteEvent (consumer path): durable increment,
then the durable ticket decrement, then cache invalidation. -/
def ProcessVoteEvent (w : World) (event : VoteEvent) :
    Except String Unit × World :=
  match MySQLRepository.IncrementVotes w.mysql event.usernames event.ticketVersion with
  | .error e => (.error ("处理投票事件更新数据库失败: " ++ e), w)
  | .ok mysql' =>
      match MySQLRepository.DecrementTicketUsage mysql' event.ticketVersion with
      | .error e =>
          (.error ("处理投票事件减少票据使用次数失败: " ++ e), { w with mysql := mysql' })
      | .ok (_, mysql'') =>
          let redis' := DeleteUserVoteCaches w.cacheDeleteOk w.redis event.usernames
          (.ok (), { w with mysql := mysql'', redis := redis' })

/-- vote_service.go TicketAndVote: GetCurrentTicket then Vote; a failure to
get a ticket returns a failure response with a nil error. -/
def TicketAndVote (w : World) (usernames : List String) :
    (VoteResponse × Option String) × World :=
  let got := TicketService.GetCurrentTicket w.redis w.mysql
  match got.1 with
  | .error e =>
      (({ success := false, message := "获取票据失败: " ++ e,
          usernames := usernames }, none), { w with redis := got.2 })
  | .ok t => Vote { w with redis := got.2 } { usernames := usernames, ticket := t }

end VoteService

namespace Resolver

open VoteService

/-- Resolver.Vote (GraphQL): call the service and, when the service returns
a non-nil error, return the canned failure response TOGETHER with that
error.  graphql-go surfaces a resolver's non-nil error in the response's
errors array, i.e. as a protocol-level error; the second slot of the
result models exactly that.  The RFC 3339 ticket-timestamp parsing of the
Go resolver is not modelled: the embedding takes the already-parsed
ticket, which is faithful for the username-validation paths. -/
def Vote (w : World) (request : VoteRequest) :
    (VoteResponse × Option String) × World :=
  let out := VoteService.Vote w request
  match out.1.2 with
  | some e =>
      (({ success := false, message := "投票失败", usernames := request.usernames },
        some e), out.2)
  | none => ((out.1.1, none), out.2)

/-- Resolver.TicketAndVote (GraphQL): its own inline validation returns a
failure VoteResponse with a nil resolver error; a service error is also
wrapped into a failure VoteResponse with a nil resolver error, so nothing
on this path surfaces as a protocol-level error. -/
def TicketAndVote (w : World) (usernames : List String) :
    (VoteResponse × Option String) × World :=
  if usernames.isEmpty then
    (({ success := false, message := "投票失败: 用户名列表不能为空",
        usernames := [] }, none), w)
  else
    match usernames.find? (fun u => !validUsername u) with
    | some u =>
        (({ success := false,
            message := "投票失败: 无效的用户名: " ++ u ++ ", 用户名必须是A-Z之间的单个字母",
            usernames := usernames }, none), w)
    | none =>
        let out := VoteService.TicketAndVote w usernames
        match out.1.2 with
        | some e =>
            (({ success := false, message := "投票失败: " ++ e,
                usernames := usernames }, none), out.2)
        | none => ((out.1.1, none), out.2)

end Resolver

/-- The coordination store (etcd) seen through the lock: which /locks/<name>
keys exist and which replica's lease each is bound to. -/
structure EtcdState where
  kvKeys : String → Option Nat

/-- One replica's EtcdLock client: the store, the local map of held locks,
and a transport oracle (lease grant / txn / delete round-trips succeed iff
it is true).  Lease TTLs and the keep-alive goroutine are real time and are
not modelled. -/
structure LockClient where
  etcd : EtcdState
  held : List String
  transportOk : Bool

namespace EtcdLock

/-- Key layout /locks/<lock_name>. -/
def lockKey (name : String) : String := "/locks/" ++ name

/-- EtcdLock.AcquireLock: refuse a lock already held by this replica; else
grant a lease and run the compare-and-set transaction "create the key iff
its create revision is 0".  A failed compare is (false, nil) — held by
someone else; transport failure is an error; success records the lock
locally and returns (true, nil). -/
def AcquireLock (me : Nat) (c : LockClient) (name : String) :
    Except String Bool × LockClient :=
  if name ∈ c.held then
    (.error ("锁 " ++ name ++ " 已被当前实例持有"), c)
  else if c.transportOk then
    match c.etcd.kvKeys (lockKey name) with
    | some _ => (.ok false, c)
    | none =>
        (.ok true,
          { c with
              etcd := ⟨fun k => if k = lockKey name then some me else c.etcd.kvKeys k⟩
              held := name :: c.held })
  else (.error "事务执行失败", c)

/-- EtcdLock.releaseLock: a lock not in the local map is a no-op with a nil
error; otherwise delete the key and revoke the lease (transport failure
keeps the local entry and reports the error). -/
def ReleaseLock (c : LockClient) (name : String) :
    Except String Unit × LockClient :=
  if name ∈ c.held then
    if c.transportOk then
      (.ok (),
        { c with
            etcd := ⟨fun k => if k = lockKey name then none else c.etcd.kvKeys k⟩
            held := c.held.erase name })
    else (.error "删除键失败", c)
  else (.ok (), c)

end EtcdLock

/-! Concrete store fixtures used to instantiate the theorems below on
explicit inputs. -/

/-- A concrete ticket: version "100", value "vv", 3 usages left. -/
def ticketFix : Ticket := ⟨"100", "vv", 3, 0, 0⟩

/-- Fast tier holding ticketFix as the newest ticket and a cache entry for
user A; the decrement script is preloaded. -/
def redisFix : RedisState :=
  { newestVersion := some "100"
    tickets := fun v => if v = "100" then some ⟨"vv", some 3, some 0, some 0⟩ else none
    userVoteCache := fun u => if u = "A" then some ⟨"A", 0⟩ else none
    scriptCached := true }

/-- Durable tier with a user_votes row for A at 0 votes, no vote logs, and
the durable row for ticketFix. -/
def mysqlFix : MySQLState :=
  { userVotes := fun u => if u = "A" then some 0 else none
    voteLogs := []
    tickets := fun v => if v = "100" then some ticketFix else none }

/-- A world in which the Kafka publish fails and every cache DEL succeeds. -/
def worldFix : VoteService.World :=
  { redis := redisFix, mysql := mysqlFix
    kafkaPublishOk := false, cacheDeleteOk := fun _ => true }

/-- A vote request for user A carrying ticketFix. -/
def requestFix : VoteRequest := ⟨["A"], ticketFix⟩

/-- Same version and value as ticketFix, different remaining_usages,
expires_at and created_at. -/
def ticketFixAlt : Ticket := ⟨"100", "vv", 99, 5, 7⟩

/-- Fast tier whose newest ticket has exactly one usage left. -/
def redisFixOne : RedisState :=
  { redisFix with
      tickets := fun v => if v = "100" then some ⟨"vv", some 1, some 0, some 0⟩ else none }

/-! ## Theorems -/

open RedisRepository MySQLRepository TicketService VoteService EtcdLock in
/-- C3: UseTicket returns true iff ValidateTicket succeeds — i.e. the
presented version equals the fast-tier latest-version pointer and the
presented value equals the stored value for that version — and the
fast-tier atomic decrement for that version then succeeds; any validation
or decrement error is returned as false together with the error. -/
theorem UseTicket_true_iff_validate_and_decrement (st : RedisState) (t : Ticket) :
    ((UseTicket st t).1 = .ok () ↔
      (ValidateTicket st t = .ok () ∧
        ∃ r, (RedisRepository.DecrementTicketUsage st t.version).1 = .ok r))
    ∧ (ValidateTicket st t = .ok () ↔
        (GetNewestTicketVersion st = t.version ∧
          ∃ stored, RedisRepository.GetTicket st t.version = .ok stored ∧
            stored.value = t.value))
    ∧ (∀ e, ValidateTicket st t = .error e →
        (UseTicket st t).1 = .error ("票据验证失败: " ++ e))
    ∧ (∀ e, ValidateTicket st t = .ok () →
        (RedisRepository.DecrementTicketUsage st t.version).1 = .error e →
        (UseTicket st t).1 = .error ("减少Redis票据使用次数失败: " ++ e)) := by
  refine ⟨?_, ?_, ?_, ?_⟩
  · unfold UseTicket
    cases hval : ValidateTicket st t with
    | error e => simp [hval]
    | ok u =>
        cases u
        cases hdec : (RedisRepository.DecrementTicketUsage st t.version).1 with
        | error e => simp [hdec]
        | ok r => simp [hdec]
  · unfold ValidateTicket
    by_cases hv : t.version = GetNewestTicketVersion st
    · rw [if_neg (by simp [hv])]
      cases hg : RedisRepository.GetTicket st t.version with
      | error e => simp [hg, hv]
      | ok stored =>
          by_cases hvv : t.value = stored.value
          · simp [hg, hv.symm, hvv]
          · simp only [hg]
            constructor
            · intro h
              rw [if_pos (by exact hvv)] at h
              exact absurd h (by simp)
            · rintro ⟨-, s, hs, hsv⟩
              cases hs
              exact absurd hsv.symm hvv
    · rw [if_pos hv]
      constructor
      · intro h; exact absurd h (by simp)
      · rintro ⟨hver, -⟩
        exact absurd hver.symm hv
  · intro e hval
    unfold UseTicket
    simp [hval]
  · intro e hval hdec
    unfold UseTicket
    simp [hval, hdec]

open RedisRepository in
/-- The Lua script leaves every other version's hash unchanged and only
ever rewrites remainingUsages of the decremented version. -/
theorem DecrementScriptRun_tickets (st : RedisState) (v : String) :
    ((st.tickets v).bind TicketHash.remainingUsages = none →
      DecrementTicketUsageScriptRun st v = (.corrupt, st))
    ∧ (∀ h r, st.tickets v = some h → h.remainingUsages = some r → r ≤ 0 →
        DecrementTicketUsageScriptRun st v = (.exhausted, st))
    ∧ (∀ h r, st.tickets v = some h → h.remainingUsages = some r → 0 < r →
        (DecrementTicketUsageScriptRun st v).1 = .ok (r - 1) ∧
        (DecrementTicketUsageScriptRun st v).2.tickets v =
          some { h with remainingUsages := some (r - 1) } ∧
        ∀ u, u ≠ v → (DecrementTicketUsageScriptRun st v).2.tickets u = st.tickets u) := by
  refine ⟨?_, ?_, ?_⟩
  · intro habs
    unfold DecrementTicketUsageScriptRun
    cases hh : st.tickets v with
    | none => rfl
    | some h =>
        rw [hh] at habs
        simp only [Option.some_bind] at habs
        simp [habs]
  · intro h r hh hr hle
    unfold DecrementTicketUsageScriptRun
    simp [hh, hr, hle]
  · intro h r hh hr hpos
    unfold DecrementTicketUsageScriptRun
    have : ¬ r ≤ 0 := by omega
    simp [hh, hr, this]
    intro u hu
    simp [hu]

open RedisRepository in
/-- The script run never touches the pointer slot or the script cache. -/
theorem DecrementScriptRun_preserves (st : RedisState) (v : String) :
    (DecrementTicketUsageScriptRun st v).2.scriptCached = st.scriptCached ∧
    (DecrementTicketUsageScriptRun st v).2.newestVersion = st.newestVersion := by
  unfold DecrementTicketUsageScriptRun
  cases hh : st.tickets v with
  | none => exact ⟨rfl, rfl⟩
  | some h =>
      cases hr : h.remainingUsages with
      | none => simp [hr]
      | some r =>
          by_cases hle : r ≤ 0
          · simp [hr, hle]
          · simp [hr, hle]

open RedisRepository in
/-- The Go caller of the script always ends up running it exactly once on a
server whose script cache holds it: with EVALSHA directly when cached (one
attempt), after one ScriptLoad reload when not (two attempts). -/
theorem DecrementTicketUsage_eq (st : RedisState) (v : String) :
    RedisRepository.DecrementTicketUsage st v =
      (InterpretScriptReply
          (DecrementTicketUsageScriptRun { st with scriptCached := true } v).1,
       (DecrementTicketUsageScriptRun { st with scriptCached := true } v).2,
       if st.scriptCached then 1 else 2) := by
  obtain ⟨nv, tk, uc, sc⟩ := st
  cases sc <;> rfl

open RedisRepository in
/-- C4: the fast-tier decrement_usage: an absent remaining_usages field
yields the corrupt error (no write); a count at or below zero yields the
exhausted error and leaves the value unchanged; otherwise it decrements by
exactly one and returns the new remaining count, so a call at
remaining_usages = 1 returns 0 and the next call returns the exhausted
error; and on a missing script-cache entry the caller reloads and retries
exactly once (two EVALSHA attempts instead of one). -/
theorem DecrementTicketUsage_usage_spec (st : RedisState) (v : String) :
    ((st.tickets v).bind TicketHash.remainingUsages = none →
        (RedisRepository.DecrementTicketUsage st v).1 = .error "票据数据损坏" ∧
        (RedisRepository.DecrementTicketUsage st v).2.1.tickets = st.tickets)
    ∧ (∀ h r, st.tickets v = some h → h.remainingUsages = some r → r ≤ 0 →
        (RedisRepository.DecrementTicketUsage st v).1 = .error "票据使用次数已耗尽" ∧
        (RedisRepository.DecrementTicketUsage st v).2.1.tickets = st.tickets)
    ∧ (∀ h r, st.tickets v = some h → h.remainingUsages = some r → 0 < r →
        (RedisRepository.DecrementTicketUsage st v).1 = .ok (r - 1) ∧
        (RedisRepository.DecrementTicketUsage st v).2.1.tickets v =
          some { h with remainingUsages := some (r - 1) } ∧
        ∀ u, u ≠ v →
          (RedisRepository.DecrementTicketUsage st v).2.1.tickets u = st.tickets u)
    ∧ ((RedisRepository.DecrementTicketUsage st v).2.2 =
        if st.scriptCached then 1 else 2)
    ∧ (∀ h, st.tickets v = some h → h.remainingUsages = some 1 →
        (RedisRepository.DecrementTicketUsage st v).1 = .ok 0 ∧
        (RedisRepository.DecrementTicketUsage
            (RedisRepository.DecrementTicketUsage st v).2.1 v).1 =
          .error "票据使用次数已耗尽") := by
  have hre := DecrementTicketUsage_eq st v
  refine ⟨?_, ?_, ?_, ?_, ?_⟩
  · intro habs
    have hcor := (DecrementScriptRun_tickets { st with scriptCached := true } v).1 habs
    rw [hre, hcor]
    exact ⟨rfl, rfl⟩
  · intro h r hh hr hle
    have hex := (DecrementScriptRun_tickets { st with scriptCached := true } v).2.1
      h r hh hr hle
    rw [hre, hex]
    exact ⟨rfl, rfl⟩
  · intro h r hh hr hpos
    have hok := (DecrementScriptRun_tickets { st with scriptCached := true } v).2.2
      h r hh hr hpos
    rw [hre]
    refine ⟨?_, ?_, ?_⟩
    · rw [hok.1]; rfl
    · exact hok.2.1
    · exact hok.2.2
  · rw [hre]
  · intro h hh hr1
    have hok := (DecrementScriptRun_tickets { st with scriptCached := true } v).2.2
      h 1 hh hr1 (by norm_num)
    have h1 : (RedisRepository.DecrementTicketUsage st v).1 = .ok 0 := by
      rw [hre, hok.1]
      norm_num [InterpretScriptReply]
    refine ⟨h1, ?_⟩
    have htick : (RedisRepository.DecrementTicketUsage st v).2.1.tickets v =
        some { h with remainingUsages := some 0 } := by
      rw [hre]
      have := hok.2.1
      norm_num at this
      exact this
    have hre₂ := DecrementTicketUsage_eq ((RedisRepository.DecrementTicketUsage st v).2.1) v
    have hex := (DecrementScriptRun_tickets
        { (RedisRepository.DecrementTicketUsage st v).2.1 with scriptCached := true } v).2.1
      { h with remainingUsages := some 0 } 0 htick rfl le_rfl
    rw [hre₂, hex]
    rfl

open TicketService in
/-- C5: the mint sequence attempts the durable save first, then the
fast-tier record write, then the latest-version pointer, in that order; a
failed durable save aborts with no fast-tier writes at all; a failed
fast-tier record write or pointer write does not abort the remaining
steps (in particular the pointer is still written when the record write
failed, and the durable row exists in every non-aborted run). -/
theorem generateTicket_write_ordering (o : MintOracle) (maxUsageCount : Int)
    (version value : String) (now refreshInterval : Int)
    (mysql : MySQLState) (redis : RedisState) :
    ((generateTicket o maxUsageCount version value now refreshInterval mysql redis).2.2 =
        if o.mysqlSaveOk then [.durableSave, .fastCreate, .setPointer]
        else [.durableSave])
    ∧ (o.mysqlSaveOk = false →
        generateTicket o maxUsageCount version value now refreshInterval mysql redis =
          (mysql, redis, [.durableSave]))
    ∧ (o.mysqlSaveOk = true →
        (generateTicket o maxUsageCount version value now refreshInterval mysql
            redis).1.tickets version =
          some ⟨version, value, maxUsageCount, now + refreshInterval, now⟩)
    ∧ (o.mysqlSaveOk = true → o.redisSetVersionOk = true →
        (generateTicket o maxUsageCount version value now refreshInterval mysql
            redis).2.1.newestVersion = some version)
    ∧ (o.mysqlSaveOk = true → o.redisCreateOk = false →
        (generateTicket o maxUsageCount version value now refreshInterval mysql
            redis).2.1.tickets = redis.tickets)
    ∧ (o.mysqlSaveOk = true → o.redisCreateOk = true →
        (generateTicket o maxUsageCount version value now refreshInterval mysql
            redis).2.1.tickets version =
          some ⟨value, some maxUsageCount, some (now + refreshInterval), some now⟩) := by
  obtain ⟨s, c, p⟩ := o
  cases s <;> cases c <;> cases p <;>
    simp [generateTicket, MySQLRepository.SaveTicket, RedisRepository.CreateTicket,
      RedisRepository.SetNewestTicketVersion]

open RedisRepository in
/-- Where the script leaves each ticket hash: unchanged, or (for the
decremented version only) remainingUsages rewritten from a positive r to
r - 1. -/
theorem DecrementScriptRun_tickets_char (st : RedisState) (v u : String) :
    (DecrementTicketUsageScriptRun st v).2.tickets u = st.tickets u ∨
    (u = v ∧ ∃ h r, st.tickets v = some h ∧ h.remainingUsages = some r ∧ 0 < r ∧
      (DecrementTicketUsageScriptRun st v).2.tickets u =
        some { h with remainingUsages := some (r - 1) }) := by
  unfold DecrementTicketUsageScriptRun
  cases hh : st.tickets v with
  | none => exact .inl rfl
  | some h =>
      cases hr : h.remainingUsages with
      | none => left; simp [hr]
      | some r =>
          by_cases hle : r ≤ 0
          · left; simp [hr, hle]
          · by_cases huv : u = v
            · exact .inr ⟨huv, h, r, rfl, hr, by omega, by simp [hr, hle, huv]⟩
            · left; simp [hr, hle, huv]

open RedisRepository MySQLRepository TicketService in
/-- C6: remaining_usages never goes negative and never increases: the
fast-tier script and the durable transactional decrement both refuse to
decrement a count at or below zero, every surviving count is bounded by
the old one (and stays non-negative when the old one was), and the only
upward write is minting a fresh version at MaxUsageCount. -/
theorem remainingUsages_nonneg_monotone :
    (∀ (st : RedisState) (v u : String) (h' : TicketHash) (r' : Int),
        (DecrementTicketUsageScriptRun st v).2.tickets u = some h' →
        h'.remainingUsages = some r' →
        ∃ h r, st.tickets u = some h ∧ h.remainingUsages = some r ∧
          r' ≤ r ∧ (0 ≤ r → 0 ≤ r'))
    ∧ (∀ (st : RedisState) (v : String) (h : TicketHash) (r : Int),
        st.tickets v = some h → h.remainingUsages = some r → r ≤ 0 →
        DecrementTicketUsageScriptRun st v = (.exhausted, st))
    ∧ (∀ (st : MySQLState) (v : String) (t : Ticket),
        st.tickets v = some t → t.remainingUsages ≤ 0 →
        MySQLRepository.DecrementTicketUsage st v = .error "票据使用次数已耗尽")
    ∧ (∀ (st : MySQLState) (v : String) (r : Int) (st' : MySQLState)
        (u : String) (t' : Ticket),
        MySQLRepository.DecrementTicketUsage st v = .ok (r, st') →
        st'.tickets u = some t' →
        ∃ t0, st.tickets u = some t0 ∧ t'.remainingUsages ≤ t0.remainingUsages ∧
          (0 ≤ t0.remainingUsages → 0 ≤ t'.remainingUsages))
    ∧ (∀ (o : MintOracle) (maxUsageCount : Int) (version value : String)
        (now refreshInterval : Int) (mysql : MySQLState) (redis : RedisState),
        o.mysqlSaveOk = true →
        ((generateTicket o maxUsageCount version value now refreshInterval mysql
            redis).1.tickets version).map Ticket.remainingUsages = some maxUsageCount) := by
  refine ⟨?_, ?_, ?_, ?_, ?_⟩
  · intro st v u h' r' hh' hr'
    rcases DecrementScriptRun_tickets_char st v u with hsame | ⟨huv, h, r, hh, hr, hpos, hupd⟩
    · rw [hsame] at hh'
      exact ⟨h', r', hh', hr', le_refl r', fun x => x⟩
    · subst huv
      rw [hupd] at hh'
      obtain rfl : h' = { h with remainingUsages := some (r - 1) } := by
        injection hh' with h1; exact h1.symm
      simp at hr'
      refine ⟨h, r, hh, hr, ?_, ?_⟩ <;> omega
  · intro st v h r hh hr hle
    exact (DecrementScriptRun_tickets st v).2.1 h r hh hr hle
  · intro st v t hh hle
    unfold MySQLRepository.DecrementTicketUsage
    simp [hh, hle]
  · intro st v r st' u t' hok ht'
    revert hok
    unfold MySQLRepository.DecrementTicketUsage
    cases hh : st.tickets v with
    | none => intro hok; exact absurd hok (by simp)
    | some t0 =>
        by_cases hle : t0.remainingUsages ≤ 0
        · intro hok; exact absurd hok (by simp [hle])
        · intro hok
          simp [hle] at hok
          obtain ⟨-, hst'⟩ := hok
          subst hst'
          by_cases huv : u = v
          · subst huv
            simp at ht'
            refine ⟨t0, hh, ?_, ?_⟩
            · rw [← ht']; simp
            · rw [← ht']; simp; omega
          · simp [huv] at ht'
            exact ⟨t', ht', le_refl _, fun x => x⟩
  · intro o maxUsageCount version value now refreshInterval mysql redis hs
    obtain ⟨s, c, p⟩ := o
    simp only at hs
    subst hs
    cases c <;> cases p <;>
      simp [generateTicket, MySQLRepository.SaveTicket]

open RedisRepository MySQLRepository TicketService in
/-- C7: get_current_ticket reads the latest-version pointer from the fast
tier and then the ticket record for that version from the fast tier; on a
fast-tier miss it falls back to the durable tier and repopulates the fast
tier with the record it found; and in both paths it returns an error
instead of a ticket whenever remaining_usages is at or below zero. -/
theorem GetCurrentTicket_read_path (redis : RedisState) (mysql : MySQLState) :
    (∀ t, RedisRepository.GetTicket redis (GetNewestTicketVersion redis) = .ok t →
        (GetCurrentTicket redis mysql).2 = redis ∧
        (GetCurrentTicket redis mysql).1 =
          (if t.remainingUsages ≤ 0 then
            .error ("票据 " ++ GetNewestTicketVersion redis ++ " 使用次数已耗尽")
          else .ok t))
    ∧ (∀ e t, RedisRepository.GetTicket redis (GetNewestTicketVersion redis) = .error e →
        MySQLRepository.GetTicket mysql (GetNewestTicketVersion redis) = .ok t →
        (GetCurrentTicket redis mysql).2 = CreateTicket redis t ∧
        (GetCurrentTicket redis mysql).1 =
          (if t.remainingUsages ≤ 0 then
            .error ("票据 " ++ GetNewestTicketVersion redis ++ " 使用次数已耗尽")
          else .ok t))
    ∧ (∀ e e', RedisRepository.GetTicket redis (GetNewestTicketVersion redis) = .error e →
        MySQLRepository.GetTicket mysql (GetNewestTicketVersion redis) = .error e' →
        GetCurrentTicket redis mysql = (.error ("获取票据失败: " ++ e'), redis))
    ∧ (∀ t, (GetCurrentTicket redis mysql).1 = .ok t → 0 < t.remainingUsages) := by
  refine ⟨?_, ?_, ?_, ?_⟩
  · intro t ht
    unfold GetCurrentTicket
    rw [ht]
    by_cases hle : t.remainingUsages ≤ 0 <;> simp [hle]
  · intro e t hr hm
    unfold GetCurrentTicket
    rw [hr, hm]
    by_cases hle : t.remainingUsages ≤ 0 <;> simp [hle]
  · intro e e' hr hm
    unfold GetCurrentTicket
    rw [hr, hm]
  · intro t hok
    revert hok
    unfold GetCurrentTicket
    cases hr : RedisRepository.GetTicket redis (GetNewestTicketVersion redis) with
    | ok t0 =>
        by_cases hle : t0.remainingUsages ≤ 0
        · intro hok; exact absurd hok (by simp [hle])
        · intro hok
          simp [hle] at hok
          subst hok
          omega
    | error e =>
        cases hm : MySQLRepository.GetTicket mysql (GetNewestTicketVersion redis) with
        | error e' => intro hok; exact absurd hok (by simp)
        | ok t0 =>
            by_cases hle : t0.remainingUsages ≤ 0
            · intro hok; exact absurd hok (by simp [hle])
            · intro hok
              simp [hle] at hok
              subst hok
              omega

open EtcdLock in
/-- C8: acquire returns won=true iff the caller now exclusively holds the
lock (the compare-and-set created the key bound to this replica and the
local map records it); won=false with no error exactly when another holder
owns the key; an error exactly on transport failure or on acquiring a lock
already held by this replica; and releasing a lock this replica does not
hold is a no-op returning no error. -/
theorem AcquireLock_contract (me : Nat) (c : LockClient) (name : String) :
    ((AcquireLock me c name).1 = .ok true ↔
      (name ∉ c.held ∧ c.transportOk = true ∧
        c.etcd.kvKeys (lockKey name) = none))
    ∧ ((AcquireLock me c name).1 = .ok true →
        (AcquireLock me c name).2.etcd.kvKeys (lockKey name) = some me ∧
        name ∈ (AcquireLock me c name).2.held)
    ∧ ((AcquireLock me c name).1 = .ok false ↔
      (name ∉ c.held ∧ c.transportOk = true ∧
        (c.etcd.kvKeys (lockKey name)).isSome = true))
    ∧ ((AcquireLock me c name).1 = .ok false → (AcquireLock me c name).2 = c)
    ∧ ((∃ e, (AcquireLock me c name).1 = .error e) ↔
        (name ∈ c.held ∨ c.transportOk = false))
    ∧ (name ∈ c.held →
        AcquireLock me c name = (.error ("锁 " ++ name ++ " 已被当前实例持有"), c))
    ∧ (name ∉ c.held → ReleaseLock c name = (.ok (), c)) := by
  unfold AcquireLock ReleaseLock
  by_cases hheld : name ∈ c.held
  · simp [hheld]
  · cases htr : c.transportOk
    · simp [hheld, htr]
    · cases hkv : c.etcd.kvKeys (lockKey name) with
      | none => simp [hheld, htr, hkv]
      | some o => simp [hheld, htr, hkv]

open RedisRepository TicketService in
/-- C9: validation and spending read only the presented ticket's version
and value: two presented tickets agreeing on those two fields but
differing arbitrarily in remaining_usages, expires_at and created_at get
the same outcome (result and post-state) against the same store state. -/
theorem spend_reads_only_version_value (st : RedisState) (t t' : Ticket)
    (hver : t.version = t'.version) (hval : t.value = t'.value) :
    ValidateTicket st t = ValidateTicket st t' ∧
    UseTicket st t = UseTicket st t' := by
  obtain ⟨v1, x1, r1, e1, c1⟩ := t
  obtain ⟨v2, x2, r2, e2, c2⟩ := t'
  have h1 : v1 = v2 := hver
  have h2 : x1 = x2 := hval
  subst h1
  subst h2
  exact ⟨rfl, rfl⟩

/-- Witness for C9 at concrete inputs: ticketFix and ticketFixAlt share
version "100" and value "vv" but differ in every other field. -/
theorem spend_reads_only_version_value_witness :
    RedisRepository.ValidateTicket redisFix ticketFix =
      RedisRepository.ValidateTicket redisFix ticketFixAlt ∧
    TicketService.UseTicket redisFix ticketFix =
      TicketService.UseTicket redisFix ticketFixAlt :=
  spend_reads_only_version_value redisFix ticketFix ticketFixAlt rfl rfl

open MySQLRepository in
/-- Each user's row after a committed IncrementVotes transaction: the old
count plus that user's number of occurrences in the list. -/
theorem IncrementVotesLoop_ok_userVotes (us : List String) :
    ∀ (ver : String) (st st' : MySQLState),
      IncrementVotesLoop st us ver = .ok st' →
      ∀ u, st'.userVotes u = (st.userVotes u).map (fun n => n + us.count u) := by
  induction us with
  | nil =>
      intro ver st st' h u
      simp only [IncrementVotesLoop] at h
      cases h
      cases st.userVotes u <;> simp
  | cons v rest ih =>
      intro ver st st' h u
      simp only [IncrementVotesLoop] at h
      cases hv : st.userVotes v with
      | none => rw [hv] at h; exact absurd h (by simp)
      | some n =>
          rw [hv] at h
          rw [ih ver _ st' h u]
          by_cases huv : u = v
          · subst huv
            simp [hv, List.count_cons]
            omega
          · simp [huv, List.count_cons]

open MySQLRepository in
/-- A committed IncrementVotes transaction appends exactly one vote-log row
per list element, in list order. -/
theorem IncrementVotesLoop_ok_voteLogs (us : List String) :
    ∀ (ver : String) (st st' : MySQLState),
      IncrementVotesLoop st us ver = .ok st' →
      st'.voteLogs = st.voteLogs ++ us.map (fun x => (x, ver)) := by
  induction us with
  | nil =>
      intro ver st st' h
      simp only [IncrementVotesLoop] at h
      cases h
      simp
  | cons v rest ih =>
      intro ver st st' h
      simp only [IncrementVotesLoop] at h
      cases hv : st.userVotes v with
      | none => rw [hv] at h; exact absurd h (by simp)
      | some n =>
          rw [hv] at h
          rw [ih ver _ st' h]
          simp

open MySQLRepository in
/-- IncrementVotes never touches the durable tickets table. -/
theorem IncrementVotesLoop_ok_tickets (us : List String) :
    ∀ (ver : String) (st st' : MySQLState),
      IncrementVotesLoop st us ver = .ok st' → st'.tickets = st.tickets := by
  induction us with
  | nil =>
      intro ver st st' h
      simp only [IncrementVotesLoop] at h
      cases h
      rfl
  | cons v rest ih =>
      intro ver st st' h
      simp only [IncrementVotesLoop] at h
      cases hv : st.userVotes v with
      | none => rw [hv] at h; exact absurd h (by simp)
      | some n => rw [hv] at h; exact (ih ver _ st' h).trans rfl

open MySQLRepository in
/-- IncrementVotes commits exactly when every listed username has a
user_votes row. -/
theorem IncrementVotesLoop_ok_iff (us : List String) :
    ∀ (ver : String) (st : MySQLState),
      (∃ st', IncrementVotesLoop st us ver = .ok st') ↔
        ∀ x ∈ us, (st.userVotes x).isSome = true := by
  induction us with
  | nil =>
      intro ver st
      simp [IncrementVotesLoop]
  | cons v rest ih =>
      intro ver st
      simp only [IncrementVotesLoop]
      cases hv : st.userVotes v with
      | none =>
          simp only [List.mem_cons]
          constructor
          · rintro ⟨st', h⟩; exact absurd h (by simp)
          · intro hall
            have := hall v (Or.inl rfl)
            rw [hv] at this
            exact absurd this (by simp)
      | some n =>
          rw [ih ver _]
          constructor
          · intro hall x hx
            rcases List.mem_cons.mp hx with rfl | hx'
            · rw [hv]; rfl
            · by_cases hxv : x = v
              · rw [hxv, hv]; rfl
              · have := hall x hx'
                simpa [hxv] using this
          · intro hall x hx
            by_cases hxv : x = v
            · simp [hxv]
            · simp only [hxv]
              simpa [hxv] using hall x (List.mem_cons_of_mem v hx)

/-- Counting the new vote-log rows of one user: one per occurrence of the
username in the mapped list. -/
theorem count_filter_map_pairs (us : List String) (ver u : String) :
    ((us.map (fun x => (x, ver))).filter (fun p => p.1 == u)).length = us.count u := by
  induction us with
  | nil => simp
  | cons v rest ih =>
      simp only [List.map_cons, List.filter_cons, List.count_cons]
      by_cases h : v = u
      · subst h
        simp [ih]
      · have h' : ¬ u = v := fun hh => h hh.symm
        simp [h, h', ih]

open MySQLRepository VoteService in
/-- C10: a settlement whose username list contains the same username k
times increments that user's durable tally by exactly k and inserts
exactly k vote-log rows for it, all in one transaction (which commits iff
every listed username has a row); and input validation depends only on
non-emptiness and per-element validity, so it never deduplicates repeats. -/
theorem IncrementVotes_duplicates_counted (st : MySQLState) (us : List String)
    (ver u : String) :
    (∀ st', IncrementVotes st us ver = .ok st' →
        st'.userVotes u = (st.userVotes u).map (fun n => n + us.count u) ∧
        st'.voteLogs = st.voteLogs ++ us.map (fun x => (x, ver)) ∧
        (st'.voteLogs.filter (fun p => p.1 == u)).length =
          (st.voteLogs.filter (fun p => p.1 == u)).length + us.count u)
    ∧ ((∃ st', IncrementVotes st us ver = .ok st') ↔
        ∀ x ∈ us, (st.userVotes x).isSome = true)
    ∧ (voteValidationError us = none ↔
        (us ≠ [] ∧ ∀ x ∈ us, validUsername x = true)) := by
  refine ⟨?_, ?_, ?_⟩
  · intro st' h
    refine ⟨IncrementVotesLoop_ok_userVotes us ver st st' h u,
      IncrementVotesLoop_ok_voteLogs us ver st st' h, ?_⟩
    rw [IncrementVotesLoop_ok_voteLogs us ver st st' h, List.filter_append,
      List.length_append, count_filter_map_pairs]
  · exact IncrementVotesLoop_ok_iff us ver st
  · unfold voteValidationError
    by_cases he : us.isEmpty
    · simp [he, List.isEmpty_iff.mp he]
    · cases hf : us.find? (fun x => !validUsername x) with
      | some x =>
          simp only [he, if_false, hf]
          constructor
          · intro h; exact absurd h (by simp)
          · rintro ⟨-, hall⟩
            have hx := List.mem_of_find?_eq_some hf
            have hb := List.find?_some hf
            rw [hall x hx] at hb
            exact absurd hb (by simp)
      | none =>
          simp only [he, if_false, hf]
          refine iff_of_true rfl ⟨fun hnil => he (by simp [hnil]), ?_⟩
          intro x hx
          have := List.find?_eq_none.mp hf x hx
          simpa using this

open VoteService MySQLRepository TicketService in
/-- C1 (amended): when the ticket spend succeeds and the event-bus publish
fails, Vote performs synchronous settlement consisting of two steps —
incrementing the durable per-user tally for every requested username (one
transaction) and deleting each username's cache entry — while the durable
tier's remaining_usages is NOT decremented in this path (it is left to the
consumer path); the call returns failure exactly when the durable
increment fails, and cache-delete errors never fail the call. -/
theorem Vote_publish_failure_settlement (w : World) (request : VoteRequest)
    (hval : voteValidationError request.usernames = none)
    (huse : (UseTicket w.redis request.ticket).1 = .ok ())
    (hk : w.kafkaPublishOk = false) :
    ((Vote w request).1.2 = none ↔
      ∃ mysql', IncrementVotes w.mysql request.usernames
        request.ticket.version = .ok mysql')
    ∧ (Vote w request).2.mysql.tickets = w.mysql.tickets
    ∧ (∀ mysql', IncrementVotes w.mysql request.usernames
          request.ticket.version = .ok mysql' →
        (Vote w request).2.mysql = mysql' ∧
        (Vote w request).2.redis =
          DeleteUserVoteCaches w.cacheDeleteOk
            (UseTicket w.redis request.ticket).2 request.usernames ∧
        (Vote w request).1.1 =
          { success := true, message := "投票成功", usernames := request.usernames })
    ∧ (∀ e, IncrementVotes w.mysql request.usernames
          request.ticket.version = .error e →
        (Vote w request).1 =
          ({ success := false, message := "投票失败", usernames := request.usernames },
           some ("更新数据库失败: " ++ e)) ∧
        (Vote w request).2.mysql = w.mysql) := by
  cases hinc : IncrementVotes w.mysql request.usernames request.ticket.version with
  | ok mysql' =>
      have htk : mysql'.tickets = w.mysql.tickets :=
        IncrementVotesLoop_ok_tickets request.usernames request.ticket.version
          w.mysql mysql' hinc
      refine ⟨?_, ?_, ?_, ?_⟩
      · simp [VoteService.Vote, hval, huse, hk, hinc]
      · simp [VoteService.Vote, hval, huse, hk, hinc, htk]
      · intro m hm
        injection hm with hm'
        subst hm'
        simp [VoteService.Vote, hval, huse, hk, hinc]
      · intro e he
        exact absurd he (by simp)
  | error e' =>
      refine ⟨?_, ?_, ?_, ?_⟩
      · simp [VoteService.Vote, hval, huse, hk, hinc]
      · simp [VoteService.Vote, hval, huse, hk, hinc]
      · intro m hm
        exact absurd hm (by simp)
      · intro e he
        injection he with he'
        subst he'
        simp [VoteService.Vote, hval, huse, hk, hinc]

/-- Witness for C1's amended theorem at the concrete fixture world: the
publish fails, the spend succeeds, and the durable tickets table comes out
of the call untouched. -/
theorem Vote_publish_failure_settlement_witness :
    (VoteService.Vote worldFix requestFix).2.mysql.tickets = worldFix.mysql.tickets :=
  (Vote_publish_failure_settlement worldFix requestFix rfl rfl rfl).2.1

/-- C1 counterexample: in worldFix the publish fails and the vote succeeds
with the tally incremented and the cache entry deleted, yet the durable
tickets row keeps remaining_usages = 3 — the durable decrement the claim
lists as part of synchronous settlement never happens. -/
theorem Vote_publish_failure_no_durable_decrement_cex :
    worldFix.kafkaPublishOk = false
    ∧ (VoteService.Vote worldFix requestFix).1 =
        ({ success := true, message := "投票成功", usernames := ["A"] }, none)
    ∧ (VoteService.Vote worldFix requestFix).2.mysql.userVotes "A" = some 1
    ∧ (VoteService.Vote worldFix requestFix).2.redis.userVoteCache "A" = none
    ∧ (mysqlFix.tickets "100").map Ticket.remainingUsages = some 3
    ∧ ((VoteService.Vote worldFix requestFix).2.mysql.tickets "100").map
        Ticket.remainingUsages = some 3 :=
  ⟨rfl, rfl, rfl, rfl, rfl, rfl⟩

open VoteService in
/-- C2 (amended): an input-validation failure (empty list or a username
that is not a single letter A-Z) on ticket_and_vote returns a VoteResponse
with success=false and a human-readable message and no resolver error on
the wire; on the vote mutation the resolver instead returns its failure
VoteResponse together with a non-nil resolver error, which graphql-go
surfaces as a protocol-level error. -/
theorem validation_failure_wire_surface (w : World)
    (usernames : List String) (t : Ticket)
    (h : voteValidationError usernames ≠ none) :
    ((Resolver.TicketAndVote w usernames).1.1.success = false
      ∧ (Resolver.TicketAndVote w usernames).1.2 = none
      ∧ ((Resolver.TicketAndVote w usernames).1.1.message =
            "投票失败: 用户名列表不能为空" ∨
          ∃ u, (Resolver.TicketAndVote w usernames).1.1.message =
            "投票失败: 无效的用户名: " ++ u ++ ", 用户名必须是A-Z之间的单个字母"))
    ∧ ((Resolver.Vote w ⟨usernames, t⟩).1.1.success = false
      ∧ (Resolver.Vote w ⟨usernames, t⟩).1.2 ≠ none) := by
  by_cases he : usernames.isEmpty
  · refine ⟨⟨?_, ?_, Or.inl ?_⟩, ?_, ?_⟩ <;>
      simp [Resolver.TicketAndVote, Resolver.Vote, VoteService.Vote,
        voteValidationError, he]
  · cases hf : usernames.find? (fun x => !validUsername x) with
    | none =>
        exfalso
        apply h
        unfold voteValidationError
        simp [he, hf]
    | some u =>
        refine ⟨⟨?_, ?_, Or.inr ⟨u, ?_⟩⟩, ?_, ?_⟩ <;>
          simp [Resolver.TicketAndVote, Resolver.Vote, VoteService.Vote,
            voteValidationError, he, hf]

/-- Witness for C2's amended theorem at a concrete invalid input: "a" is
not an uppercase letter; ticket_and_vote surfaces no resolver error while
vote does. -/
theorem validation_failure_wire_surface_witness :
    (Resolver.TicketAndVote worldFix ["a"]).1.2 = none ∧
    (Resolver.Vote worldFix ⟨["a"], ticketFix⟩).1.2 ≠ none :=
  ⟨(validation_failure_wire_surface worldFix ["a"] ticketFix (by decide)).1.2.1,
   (validation_failure_wire_surface worldFix ["a"] ticketFix (by decide)).2.2⟩

/-- C2 counterexample: on the vote mutation an empty username list makes
the resolver return its failure VoteResponse together with a non-nil
resolver error — surfaced by graphql-go as a protocol-level error, against
the claim that validation failures never reach the protocol level. -/
theorem vote_resolver_validation_protocol_error_cex :
    (Resolver.Vote worldFix ⟨[], ticketFix⟩).1.2 = some "用户名列表不能为空" ∧
    (Resolver.Vote worldFix ⟨[], ticketFix⟩).1.1.success = false :=
  ⟨rfl, rfl⟩

end LittleVote
